import Mathlib

/-!
Verification of the row-management script of the Eternia Healthcare page
(`src/script.js`): phone-number validation, capacity enforcement, row
creation, toggle state, and the submission flow, embedded as pure
functions over an explicit application state.
-/

/-- The set of characters matched by the JavaScript regular-expression
class backslash-s (WhiteSpace and LineTerminator code points), which is
also the set trimmed by `String.prototype.trim`. -/
def isJsSpace (c : Char) : Bool :=
  c = ' ' || c = '\t' || c = '\n' || c.toNat = 11 || c.toNat = 12 || c = '\r' ||
  c.toNat = 0xA0 || c.toNat = 0x1680 ||
  (0x2000 ≤ c.toNat && c.toNat ≤ 0x200A) ||
  c.toNat = 0x2028 || c.toNat = 0x2029 || c.toNat = 0x202F ||
  c.toNat = 0x205F || c.toNat = 0x3000 || c.toNat = 0xFEFF

/-- JavaScript `String.prototype.trim`: removes leading and trailing
whitespace characters. -/
def jsTrim (s : String) : String :=
  ⟨((s.data.dropWhile isJsSpace).reverse.dropWhile isJsSpace).reverse⟩

/-- `numberString.replace(/[\s\-\(\)]/g, '')` from `isValidPhoneNumber`
(script.js line 23): removes every whitespace, hyphen, and parenthesis
character, anywhere in the string. -/
def jsStripPhoneChars (s : String) : String :=
  ⟨s.data.filter (fun c => !(isJsSpace c || c = '-' || c = '(' || c = ')'))⟩

/-- The test `/^\d{10}$/.test cleanedNumber` (script.js line 27): the
whole string is exactly ten decimal digits. -/
def regexTenDigits (s : String) : Bool :=
  s.data.length == 10 && s.data.all (fun c => c.isDigit)

/-- `isValidPhoneNumber` (script.js lines 21-28). -/
def isValidPhoneNumber (numberString : String) : Bool :=
  regexTenDigits (jsStripPhoneChars numberString)

/-- One table row as rendered by the script: the three text cells, the
state of the check button (`checked` means its class list holds
`checked` rather than `unchecked`), the button glyph, and the row
element's inline `style.opacity` (`none` when never set). -/
structure TRow where
  name : String
  number : String
  area : String
  checked : Bool
  glyph : String
  opacityStyle : Option String
deriving DecidableEq, Repr

/-- `createNewRow` (script.js lines 56-90): a fresh row with the three
cells, an unchecked button with glyph `☐`, and no inline opacity. -/
def createNewRow (name number area : String) : TRow :=
  { name := name, number := number, area := area,
    checked := false, glyph := "☐", opacityStyle := none }

/-- `toggleCheck` (script.js lines 96-112): if the button is unchecked,
check it, set glyph `✔`, and set the row opacity to `0.6`; otherwise
uncheck it, set glyph `☐`, and set the row opacity to `1`. -/
def toggleCheck (r : TRow) : TRow :=
  if r.checked = false then
    { r with checked := true, glyph := "✔", opacityStyle := some "0.6" }
  else
    { r with checked := false, glyph := "☐", opacityStyle := some "1" }

/-- The effective CSS opacity of a row: `1` (the CSS initial value)
while the inline `style.opacity` is unset, otherwise the value set. -/
def effectiveOpacity (o : Option String) : String :=
  o.getD "1"

/-- The mutable page state the script manipulates: the table rows, the
three input drafts, and the counter / add-control UI written by
`updateRowCount`. -/
structure AppState where
  rows : List TRow
  nameDraft : String
  numberDraft : String
  areaDraft : String
  rowCountText : String
  limitReached : Bool
  addDisabled : Bool
  addLabel : String
deriving DecidableEq, Repr

/-- `MAX_ROWS` (script.js line 11). -/
def MAX_ROWS : Nat := 160

/-- `updateRowCount` (script.js lines 33-47): write the current row
count to the counter, and set or clear the limit marker, the add-button
disabled flag and its label according to `count >= MAX_ROWS`. -/
def updateRowCount (s : AppState) : AppState :=
  let currentRowCount := s.rows.length
  if currentRowCount ≥ MAX_ROWS then
    { s with rowCountText := toString currentRowCount,
             limitReached := true, addDisabled := true,
             addLabel := "Limit Reached" }
  else
    { s with rowCountText := toString currentRowCount,
             limitReached := false, addDisabled := false,
             addLabel := "Add Appointment" }

/-- The two `alert` notices `handleAddRow` can surface. -/
inductive Notice where
  | missingField
  | invalidPhoneNumber
deriving DecidableEq, Repr

/-- `handleAddRow` (script.js lines 120-149): trim the three drafts;
if any is empty, alert and return; if the trimmed number is invalid,
alert and return; if the row count is below `MAX_ROWS`, append the new
row, clear the drafts and refresh the counter; otherwise do nothing.
Returns the new state together with the notice surfaced, if any. -/
def handleAddRow (s : AppState) : AppState × Option Notice :=
  let name := jsTrim s.nameDraft
  let number := jsTrim s.numberDraft
  let area := jsTrim s.areaDraft
  if name = "" ∨ number = "" ∨ area = "" then
    (s, some Notice.missingField)
  else if ¬ isValidPhoneNumber number then
    (s, some Notice.invalidPhoneNumber)
  else if s.rows.length < MAX_ROWS then
    (updateRowCount { s with
        rows := s.rows ++ [createNewRow name number area],
        nameDraft := "", numberDraft := "", areaDraft := "" }, none)
  else
    (s, none)

/-- Toggling the check button of the row at index `i` (out-of-range
indices leave the list unchanged, matching that no such button exists). -/
def toggleAt : List TRow → Nat → List TRow
  | [], _ => []
  | r :: rs, 0 => toggleCheck r :: rs
  | r :: rs, Nat.succ i => r :: toggleAt rs i

/-- The toggle-button click handler applied at row index `i`: it touches
only the row list (script.js lines 96-112 read and write nothing else). -/
def handleToggleAt (s : AppState) (i : Nat) : AppState :=
  { s with rows := toggleAt s.rows i }

/-- The add-button click listener (script.js line 154): it invokes
`handleAddRow`. -/
def clickAddTrigger (s : AppState) : AppState × Option Notice :=
  handleAddRow s

/-- The keypress listener installed on each of the three inputs
(script.js lines 157-163): on `Enter` it invokes `handleAddRow`,
otherwise it does nothing. -/
def keypressTrigger (key : String) (s : AppState) : AppState × Option Notice :=
  if key = "Enter" then handleAddRow s else (s, none)

/-- One submission attempt: the user types the three drafts, then
`handleAddRow` runs (the notice, if any, is acknowledged and dropped). -/
def submitAttempt (s : AppState) (inp : String × String × String) : AppState :=
  (handleAddRow { s with nameDraft := inp.1,
                         numberDraft := inp.2.1, areaDraft := inp.2.2 }).1

/-- An empty initial page state. -/
def initState : AppState :=
  { rows := [], nameDraft := "", numberDraft := "", areaDraft := "",
    rowCountText := "0", limitReached := false, addDisabled := false,
    addLabel := "Add Appointment" }

/-- A page state whose drafts hold a complete valid submission. -/
def exampleDraftState : AppState :=
  { initState with nameDraft := "Alice", numberDraft := "123-456-7890",
                   areaDraft := "East" }

/-- A page state whose number draft carries a trailing space. -/
def paddedDraftState : AppState :=
  { initState with nameDraft := "Alice", numberDraft := "123-456-7890 ",
                   areaDraft := "East" }

/-- A page state already at capacity, with valid drafts pending and a
stale counter display. -/
def fullTableState : AppState :=
  { initState with rows := List.replicate MAX_ROWS (createNewRow "A" "1234567890" "B"),
                   nameDraft := "Alice", numberDraft := "123-456-7890",
                   areaDraft := "East" }

/-- A page state holding one fresh row. -/
def oneRowState : AppState :=
  { initState with rows := [createNewRow "A" "1234567890" "B"] }

lemma updateRowCount_fields (s : AppState) :
    (updateRowCount s).rows = s.rows ∧
    (updateRowCount s).nameDraft = s.nameDraft ∧
    (updateRowCount s).numberDraft = s.numberDraft ∧
    (updateRowCount s).areaDraft = s.areaDraft := by
  simp only [updateRowCount]
  split <;> simp

lemma handleAddRow_length_le (s : AppState) (h : s.rows.length ≤ MAX_ROWS) :
    (handleAddRow s).1.rows.length ≤ MAX_ROWS := by
  simp only [handleAddRow]
  split
  · exact h
  · split
    · exact h
    · split
      · rename_i hlt
        rw [(updateRowCount_fields _).1]
        simp only [List.length_append, List.length_singleton]
        omega
      · exact h

lemma handleAddRow_rows_at_capacity (t : AppState) (ht : MAX_ROWS ≤ t.rows.length) :
    (handleAddRow t).1.rows = t.rows := by
  simp only [handleAddRow]
  split
  · rfl
  · split
    · rfl
    · split
      · rename_i hlt; omega
      · rfl

/-- Claim C1: `isValidPhoneNumber s` is true exactly when the string
obtained from `s` by removing every whitespace, hyphen, and parenthesis
character consists of exactly 10 decimal digits; and the five quoted
evaluations hold. -/
theorem C1_isValidPhoneNumber_correct :
    (∀ s : String, isValidPhoneNumber s = true ↔
      ((s.data.filter (fun c => !(isJsSpace c || c = '-' || c = '(' || c = ')'))).length = 10 ∧
       ∀ c ∈ s.data.filter (fun c => !(isJsSpace c || c = '-' || c = '(' || c = ')')),
         c.isDigit = true)) ∧
    isValidPhoneNumber "123-456-7890" = true ∧
    isValidPhoneNumber "(123) 456-7890" = true ∧
    isValidPhoneNumber "12345" = false ∧
    isValidPhoneNumber "12345678901" = false ∧
    isValidPhoneNumber "123-abc-7890" = false := by
  refine ⟨fun s => ?_, by decide, by decide, by decide, by decide, by decide⟩
  simp only [isValidPhoneNumber, regexTenDigits, jsStripPhoneChars,
    Bool.and_eq_true, List.all_eq_true, beq_iff_eq]

/-- Claim C2: starting from a table with at most 160 rows, no sequence
of submission attempts pushes the row count past 160; `handleAddRow`
appends only when the count is strictly below `MAX_ROWS`, and at or
above capacity the table is untouched (the 161st attempt adds no row). -/
theorem C2_row_cap_invariant (inputs : List (String × String × String))
    (s : AppState) (h : s.rows.length ≤ MAX_ROWS) :
    (inputs.foldl submitAttempt s).rows.length ≤ MAX_ROWS ∧
    (∀ t : AppState, (handleAddRow t).1.rows ≠ t.rows → t.rows.length < MAX_ROWS) ∧
    (∀ t : AppState, MAX_ROWS ≤ t.rows.length → (handleAddRow t).1.rows = t.rows) := by
  refine ⟨?_, ?_, fun t ht => handleAddRow_rows_at_capacity t ht⟩
  · induction inputs generalizing s with
    | nil => exact h
    | cons a as ih =>
        simp only [List.foldl_cons]
        exact ih _ (handleAddRow_length_le _ h)
  · intro t ht
    by_contra hge
    exact ht (handleAddRow_rows_at_capacity t (by omega))

/-- Claim C2 witness at a concrete input list and the empty state. -/
theorem C2_row_cap_invariant_witness :
    initState.rows.length ≤ MAX_ROWS ∧
    (([("Alice", "123-456-7890", "East")].foldl submitAttempt initState).rows.length ≤ MAX_ROWS ∧
     (∀ t : AppState, (handleAddRow t).1.rows ≠ t.rows → t.rows.length < MAX_ROWS) ∧
     (∀ t : AppState, MAX_ROWS ≤ t.rows.length → (handleAddRow t).1.rows = t.rows)) :=
  ⟨by decide, C2_row_cap_invariant [("Alice", "123-456-7890", "East")] initState (by decide)⟩

/-- Claim C3: below capacity, with all three trimmed drafts non-empty
and a valid trimmed number, `handleAddRow` surfaces no notice, the row
count grows by exactly one, and the three drafts are cleared. -/
theorem C3_successful_submission (s : AppState)
    (hlen : s.rows.length < MAX_ROWS)
    (hn : ¬ jsTrim s.nameDraft = "")
    (hp : ¬ jsTrim s.numberDraft = "")
    (ha : ¬ jsTrim s.areaDraft = "")
    (hv : isValidPhoneNumber (jsTrim s.numberDraft) = true) :
    (handleAddRow s).2 = none ∧
    (handleAddRow s).1.rows.length = s.rows.length + 1 ∧
    (handleAddRow s).1.nameDraft = "" ∧
    (handleAddRow s).1.numberDraft = "" ∧
    (handleAddRow s).1.areaDraft = "" := by
  simp only [handleAddRow]
  rw [if_neg (by tauto), if_neg (not_not_intro hv), if_pos hlen]
  refine ⟨rfl, ?_, ?_, ?_, ?_⟩
  · rw [(updateRowCount_fields _).1]
    simp
  · rw [(updateRowCount_fields _).2.1]
  · rw [(updateRowCount_fields _).2.2.1]
  · rw [(updateRowCount_fields _).2.2.2]

/-- Claim C3 witness at a concrete draft state. -/
theorem C3_successful_submission_witness :
    (exampleDraftState.rows.length < MAX_ROWS ∧
     ¬ jsTrim exampleDraftState.nameDraft = "" ∧
     ¬ jsTrim exampleDraftState.numberDraft = "" ∧
     ¬ jsTrim exampleDraftState.areaDraft = "" ∧
     isValidPhoneNumber (jsTrim exampleDraftState.numberDraft) = true) ∧
    ((handleAddRow exampleDraftState).2 = none ∧
     (handleAddRow exampleDraftState).1.rows.length = exampleDraftState.rows.length + 1 ∧
     (handleAddRow exampleDraftState).1.nameDraft = "" ∧
     (handleAddRow exampleDraftState).1.numberDraft = "" ∧
     (handleAddRow exampleDraftState).1.areaDraft = "") :=
  ⟨⟨by decide, by decide, by decide, by decide, by decide⟩,
   C3_successful_submission exampleDraftState (by decide) (by decide) (by decide)
     (by decide) (by decide)⟩

/-- Claim C4: whenever validation fails — a trimmed draft is empty, or
the trimmed number is invalid — `handleAddRow` surfaces a notice and
leaves the whole state (rows, drafts, counter UI) exactly unchanged. -/
theorem C4_validation_failure_atomic (s : AppState)
    (h : (jsTrim s.nameDraft = "" ∨ jsTrim s.numberDraft = "" ∨ jsTrim s.areaDraft = "") ∨
         ¬ isValidPhoneNumber (jsTrim s.numberDraft) = true) :
    ((handleAddRow s).2).isSome = true ∧ (handleAddRow s).1 = s := by
  simp only [handleAddRow]
  rcases h with hm | hv
  · rw [if_pos hm]; exact ⟨rfl, rfl⟩
  · by_cases hm : jsTrim s.nameDraft = "" ∨ jsTrim s.numberDraft = "" ∨ jsTrim s.areaDraft = ""
    · rw [if_pos hm]; exact ⟨rfl, rfl⟩
    · rw [if_neg hm, if_pos hv]; exact ⟨rfl, rfl⟩

/-- Claim C4 witness at the empty-drafts state. -/
theorem C4_validation_failure_atomic_witness :
    ((jsTrim initState.nameDraft = "" ∨ jsTrim initState.numberDraft = "" ∨
      jsTrim initState.areaDraft = "") ∨
     ¬ isValidPhoneNumber (jsTrim initState.numberDraft) = true) ∧
    (((handleAddRow initState).2).isSome = true ∧ (handleAddRow initState).1 = initState) :=
  ⟨by decide, C4_validation_failure_atomic initState (by decide)⟩

lemma toggleCheck_checked (r : TRow) : (toggleCheck r).checked = !r.checked := by
  simp only [toggleCheck]
  split <;> simp_all

lemma toggleCheck_cells (r : TRow) :
    (toggleCheck r).name = r.name ∧ (toggleCheck r).number = r.number ∧
    (toggleCheck r).area = r.area := by
  simp only [toggleCheck]
  split <;> exact ⟨rfl, rfl, rfl⟩

lemma toggleAt_length (l : List TRow) (i : Nat) :
    (toggleAt l i).length = l.length := by
  induction l generalizing i with
  | nil => rfl
  | cons r rs ih =>
      cases i with
      | zero => rfl
      | succ n => simp [toggleAt, ih]

lemma toggleAt_getElem?_ne (l : List TRow) (i j : Nat) (h : j ≠ i) :
    (toggleAt l i)[j]? = l[j]? := by
  induction l generalizing i j with
  | nil => rfl
  | cons r rs ih =>
      cases i with
      | zero =>
          cases j with
          | zero => exact absurd rfl h
          | succ m => simp [toggleAt]
      | succ n =>
          cases j with
          | zero => simp [toggleAt]
          | succ m => simpa [toggleAt] using ih n m (fun hc => h (by omega))

lemma toggleAt_getElem?_self (l : List TRow) (i : Nat) :
    (toggleAt l i)[i]? = (l[i]?).map toggleCheck := by
  induction l generalizing i with
  | nil => rfl
  | cons r rs ih =>
      cases i with
      | zero => simp [toggleAt]
      | succ n => simpa [toggleAt] using ih n

/-- Claim C5 counterexample: on a fresh row, the inline opacity
attribute the first toggle introduced is not restored by the second
toggle (it becomes the explicit string `1`, while the fresh row had no
inline opacity at all). -/
theorem C5_opacity_not_restored :
    (toggleCheck (toggleCheck (createNewRow "Alice" "1234567890" "East"))).opacityStyle ≠
      (createNewRow "Alice" "1234567890" "East").opacityStyle := by
  decide

/-- Claim C5 (amended): applying toggle twice to a fresh row exactly
restores the unchecked class and the `☐` glyph, leaves the cells
unchanged, and returns the row to full rendered opacity; but the inline
`style.opacity` is set to the explicit value `1` rather than back to
the fresh row's unset state. -/
theorem C5_toggle_twice_amended (name number area : String) :
    (toggleCheck (toggleCheck (createNewRow name number area))).checked =
      (createNewRow name number area).checked ∧
    (toggleCheck (toggleCheck (createNewRow name number area))).glyph =
      (createNewRow name number area).glyph ∧
    (createNewRow name number area).glyph = "☐" ∧
    effectiveOpacity (toggleCheck (toggleCheck (createNewRow name number area))).opacityStyle =
      effectiveOpacity (createNewRow name number area).opacityStyle ∧
    (toggleCheck (toggleCheck (createNewRow name number area))).opacityStyle = some "1" ∧
    (createNewRow name number area).opacityStyle = none ∧
    (toggleCheck (toggleCheck (createNewRow name number area))).name = name ∧
    (toggleCheck (toggleCheck (createNewRow name number area))).number = number ∧
    (toggleCheck (toggleCheck (createNewRow name number area))).area = area :=
  ⟨rfl, rfl, rfl, rfl, rfl, rfl, rfl, rfl, rfl⟩

/-- Claim C6: the three checks of `handleAddRow` run in strict order —
when a trimmed field is missing the missing-field notice is surfaced,
whatever the number looks like; the phone notice appears only when no
field is missing; and a row is appended only after both validations
pass and the capacity check succeeds. -/
theorem C6_checks_strict_order (s : AppState) :
    ((jsTrim s.nameDraft = "" ∨ jsTrim s.numberDraft = "" ∨ jsTrim s.areaDraft = "") →
      (handleAddRow s).2 = some Notice.missingField) ∧
    ((¬ (jsTrim s.nameDraft = "" ∨ jsTrim s.numberDraft = "" ∨ jsTrim s.areaDraft = "") ∧
      ¬ isValidPhoneNumber (jsTrim s.numberDraft) = true) →
      (handleAddRow s).2 = some Notice.invalidPhoneNumber) ∧
    ((handleAddRow s).1.rows ≠ s.rows →
      ¬ (jsTrim s.nameDraft = "" ∨ jsTrim s.numberDraft = "" ∨ jsTrim s.areaDraft = "") ∧
      isValidPhoneNumber (jsTrim s.numberDraft) = true ∧ s.rows.length < MAX_ROWS) := by
  constructor
  · intro hm
    simp only [handleAddRow]
    rw [if_pos hm]
  constructor
  · rintro ⟨hm, hv⟩
    simp only [handleAddRow]
    rw [if_neg hm, if_pos hv]
  · intro hrows
    by_cases hm : jsTrim s.nameDraft = "" ∨ jsTrim s.numberDraft = "" ∨ jsTrim s.areaDraft = ""
    · refine absurd ?_ hrows
      simp only [handleAddRow]
      rw [if_pos hm]
    · by_cases hv : isValidPhoneNumber (jsTrim s.numberDraft) = true
      · by_cases hc : s.rows.length < MAX_ROWS
        · exact ⟨hm, hv, hc⟩
        · refine absurd ?_ hrows
          simp only [handleAddRow]
          rw [if_neg hm, if_neg (not_not_intro hv), if_neg hc]
      · refine absurd ?_ hrows
        simp only [handleAddRow]
        rw [if_neg hm, if_pos hv]

/-- Claim C6 witness: with an empty name draft and an invalid number
draft, the missing-field notice is the one surfaced. -/
theorem C6_checks_strict_order_witness :
    (jsTrim initState.nameDraft = "" ∨ jsTrim initState.numberDraft = "" ∨
     jsTrim initState.areaDraft = "") ∧
    (handleAddRow initState).2 = some Notice.missingField :=
  ⟨by decide, (C6_checks_strict_order initState).1 (by decide)⟩

/-- Claim C7: toggling the check button of row `i` flips only that
row's done-state (class, glyph, opacity): its cells, every other row,
the row count, the drafts and the counter UI are all unchanged. -/
theorem C7_toggle_frame (s : AppState) (i : Nat) (r : TRow)
    (h : s.rows[i]? = some r) :
    (handleToggleAt s i).rows[i]? = some (toggleCheck r) ∧
    (toggleCheck r).checked = !r.checked ∧
    (toggleCheck r).name = r.name ∧
    (toggleCheck r).number = r.number ∧
    (toggleCheck r).area = r.area ∧
    (∀ j, j ≠ i → (handleToggleAt s i).rows[j]? = s.rows[j]?) ∧
    (handleToggleAt s i).rows.length = s.rows.length ∧
    (handleToggleAt s i).nameDraft = s.nameDraft ∧
    (handleToggleAt s i).numberDraft = s.numberDraft ∧
    (handleToggleAt s i).areaDraft = s.areaDraft ∧
    (handleToggleAt s i).rowCountText = s.rowCountText ∧
    (handleToggleAt s i).limitReached = s.limitReached ∧
    (handleToggleAt s i).addDisabled = s.addDisabled ∧
    (handleToggleAt s i).addLabel = s.addLabel := by
  refine ⟨?_, toggleCheck_checked r, (toggleCheck_cells r).1,
    (toggleCheck_cells r).2.1, (toggleCheck_cells r).2.2,
    fun j hj => toggleAt_getElem?_ne s.rows i j hj,
    toggleAt_length s.rows i, rfl, rfl, rfl, rfl, rfl, rfl, rfl⟩
  rw [show (handleToggleAt s i).rows = toggleAt s.rows i from rfl,
    toggleAt_getElem?_self, h]
  rfl

/-- Claim C7 witness on a one-row table. -/
theorem C7_toggle_frame_witness :
    oneRowState.rows[0]? = some (createNewRow "A" "1234567890" "B") ∧
    ((handleToggleAt oneRowState 0).rows[0]? =
       some (toggleCheck (createNewRow "A" "1234567890" "B")) ∧
     (toggleCheck (createNewRow "A" "1234567890" "B")).checked =
       !(createNewRow "A" "1234567890" "B").checked ∧
     (toggleCheck (createNewRow "A" "1234567890" "B")).name =
       (createNewRow "A" "1234567890" "B").name ∧
     (toggleCheck (createNewRow "A" "1234567890" "B")).number =
       (createNewRow "A" "1234567890" "B").number ∧
     (toggleCheck (createNewRow "A" "1234567890" "B")).area =
       (createNewRow "A" "1234567890" "B").area ∧
     (∀ j, j ≠ 0 → (handleToggleAt oneRowState 0).rows[j]? = oneRowState.rows[j]?) ∧
     (handleToggleAt oneRowState 0).rows.length = oneRowState.rows.length ∧
     (handleToggleAt oneRowState 0).nameDraft = oneRowState.nameDraft ∧
     (handleToggleAt oneRowState 0).numberDraft = oneRowState.numberDraft ∧
     (handleToggleAt oneRowState 0).areaDraft = oneRowState.areaDraft ∧
     (handleToggleAt oneRowState 0).rowCountText = oneRowState.rowCountText ∧
     (handleToggleAt oneRowState 0).limitReached = oneRowState.limitReached ∧
     (handleToggleAt oneRowState 0).addDisabled = oneRowState.addDisabled ∧
     (handleToggleAt oneRowState 0).addLabel = oneRowState.addLabel) :=
  ⟨by decide, C7_toggle_frame oneRowState 0 (createNewRow "A" "1234567890" "B") (by decide)⟩

/-- Claim C8 counterexample: with a trailing space typed into the
number field, the submission succeeds but the stored number is the
trimmed text, not the exact text the user typed. -/
theorem C8_stored_number_not_exact_typed_text :
    (handleAddRow paddedDraftState).2 = none ∧
    ((handleAddRow paddedDraftState).1.rows.getLast?.map TRow.number ≠
      some paddedDraftState.numberDraft) := by
  refine ⟨by decide, by decide⟩

/-- Claim C8 (amended): on every successful submission the stored
phoneNumber is the trimmed typed text — leading and trailing whitespace
removed, all interior formatting kept, not the stripped 10-digit form —
so it equals the exact typed text exactly when that text carries no
leading or trailing whitespace. -/
theorem C8_stored_number_is_trimmed_input (s : AppState)
    (hlen : s.rows.length < MAX_ROWS)
    (hn : ¬ jsTrim s.nameDraft = "")
    (hp : ¬ jsTrim s.numberDraft = "")
    (ha : ¬ jsTrim s.areaDraft = "")
    (hv : isValidPhoneNumber (jsTrim s.numberDraft) = true) :
    (handleAddRow s).1.rows.getLast? =
      some (createNewRow (jsTrim s.nameDraft) (jsTrim s.numberDraft) (jsTrim s.areaDraft)) ∧
    (createNewRow (jsTrim s.nameDraft) (jsTrim s.numberDraft) (jsTrim s.areaDraft)).number =
      jsTrim s.numberDraft ∧
    (jsTrim s.numberDraft = s.numberDraft →
      (handleAddRow s).1.rows.getLast?.map TRow.number = some s.numberDraft) := by
  have hlast : (handleAddRow s).1.rows.getLast? =
      some (createNewRow (jsTrim s.nameDraft) (jsTrim s.numberDraft) (jsTrim s.areaDraft)) := by
    simp only [handleAddRow]
    rw [if_neg (by tauto), if_neg (not_not_intro hv), if_pos hlen]
    rw [(updateRowCount_fields _).1]
    rw [List.getLast?_append_cons]
    rfl
  refine ⟨hlast, rfl, fun heq => ?_⟩
  rw [hlast, heq]
  rfl

/-- Claim C8 witness at a concrete draft state with no surrounding
whitespace in the number draft. -/
theorem C8_stored_number_is_trimmed_input_witness :
    (exampleDraftState.rows.length < MAX_ROWS ∧
     ¬ jsTrim exampleDraftState.nameDraft = "" ∧
     ¬ jsTrim exampleDraftState.numberDraft = "" ∧
     ¬ jsTrim exampleDraftState.areaDraft = "" ∧
     isValidPhoneNumber (jsTrim exampleDraftState.numberDraft) = true) ∧
    ((handleAddRow exampleDraftState).1.rows.getLast? =
      some (createNewRow (jsTrim exampleDraftState.nameDraft)
        (jsTrim exampleDraftState.numberDraft) (jsTrim exampleDraftState.areaDraft)) ∧
     (createNewRow (jsTrim exampleDraftState.nameDraft)
        (jsTrim exampleDraftState.numberDraft) (jsTrim exampleDraftState.areaDraft)).number =
       jsTrim exampleDraftState.numberDraft ∧
     (jsTrim exampleDraftState.numberDraft = exampleDraftState.numberDraft →
       (handleAddRow exampleDraftState).1.rows.getLast?.map TRow.number =
         some exampleDraftState.numberDraft)) :=
  ⟨⟨by decide, by decide, by decide, by decide, by decide⟩,
   C8_stored_number_is_trimmed_input exampleDraftState (by decide) (by decide) (by decide)
     (by decide) (by decide)⟩

/-- Claim C9: the Enter-key handler on the three input fields and the
add-button click handler invoke the identical submission behaviour, so
from every page state they produce the same resulting state and notice. -/
theorem C9_enter_equals_click (s : AppState) :
    keypressTrigger "Enter" s = clickAddTrigger s :=
  rfl

/-- Claim C10: at or above capacity with drafts that pass both
validations, `handleAddRow` returns with no effect at all — no notice,
no new row, drafts kept, and none of the counter or add-control fields
refreshed (the state is returned exactly as it was). -/
theorem C10_capacity_silent_noop (s : AppState)
    (hlen : MAX_ROWS ≤ s.rows.length)
    (hn : ¬ jsTrim s.nameDraft = "")
    (hp : ¬ jsTrim s.numberDraft = "")
    (ha : ¬ jsTrim s.areaDraft = "")
    (hv : isValidPhoneNumber (jsTrim s.numberDraft) = true) :
    handleAddRow s = (s, none) := by
  simp only [handleAddRow]
  rw [if_neg (by tauto), if_neg (not_not_intro hv), if_neg (by omega)]

/-- Claim C10 witness at a full table with valid pending drafts and a
stale counter display. -/
theorem C10_capacity_silent_noop_witness :
    (MAX_ROWS ≤ fullTableState.rows.length ∧
     ¬ jsTrim fullTableState.nameDraft = "" ∧
     ¬ jsTrim fullTableState.numberDraft = "" ∧
     ¬ jsTrim fullTableState.areaDraft = "" ∧
     isValidPhoneNumber (jsTrim fullTableState.numberDraft) = true) ∧
    handleAddRow fullTableState = (fullTableState, none) :=
  ⟨⟨by simp [fullTableState, initState], by decide, by decide, by decide, by decide⟩,
   C10_capacity_silent_noop fullTableState (by simp [fullTableState, initState])
     (by decide) (by decide) (by decide) (by decide)⟩
